import Mathlib

/-!
Verification of the Voice-GenAI-Tool orchestration layer.

The definitions below are a shallow embedding of the request handlers in
`app.py` and the helper modules under `src/`.  External effects are made
explicit:

* The outcome of each backend call (`speech_processor.transcribe_audio`,
  `conversation_engine.process_conversation`,
  `speech_processor.synthesize_speech`, database writes, `os.remove`) is an
  input to the embedded handler, so a handler is a pure function from the
  request and the behaviour of the environment to its result.
* A handler returns, besides its `Except` result, the list of backend calls
  it performed (in order) and the list of background tasks it enqueued via
  `background_tasks.add_task` (in order).
* Python dictionaries returned by backends are records of `Option` fields;
  subscripting (`d["k"]`) raises `KeyError` when the field is absent, while
  `d.get("k", v)` defaults.
* Python exception propagation is `Except Exc`; the generic
  `except Exception` handlers re-raise `HTTPException(500, ...)`, and note
  that `fastapi.HTTPException` is itself an `Exception`, so an
  `HTTPException(400, ...)` raised inside the `try` block is caught by the
  generic handler as well.
-/

/-- Python exceptions that the embedded code can raise or observe. -/
inductive Exc where
  | httpException (status : Nat) (detail : String)
  | keyError (key : String)
  | backendFailure (msg : String)
  | osError (msg : String)
  | nameError (name : String)
deriving DecidableEq, Repr

/-- Rendering of `str(e)` for the exceptions above, used when the generic handler builds
its `"Processing failed: {str(e)}"` detail string. -/
def excMessage : Exc → String
  | .httpException s d => toString s ++ ": " ++ d
  | .keyError k => k
  | .backendFailure m => m
  | .osError m => m
  | .nameError n => "name " ++ n ++ " is not defined"

/-- An uploaded file as the handlers see it: `audio_file.filename` and
`audio_file.content_type`. -/
structure UploadFile where
  filename : String
  content_type : String
deriving DecidableEq, Repr

/-- Character-by-character prefix test. -/
def charsStartWith : List Char → List Char → Bool
  | [], _ => true
  | _ :: _, [] => false
  | p :: ps, c :: cs => if p = c then charsStartWith ps cs else false

/-- Python `s.startswith(pre)`. -/
def strStartsWith (s pre : String) : Bool := charsStartWith pre.data s.data

/-- Subscripting a dictionary field: `d["k"]` raises `KeyError` when the
field is absent. -/
def getKey {α : Type} (o : Option α) (k : String) : Except Exc α :=
  match o with
  | some v => Except.ok v
  | none => Except.error (Exc.keyError k)

/-- The dictionary returned by `speech_processor.transcribe_audio`.  The
handlers only touch the keys `text`, `confidence`, `processing_time` and
`language`; each may be absent. -/
structure TranscriptionDict where
  text : Option String
  confidence : Option Rat
  processing_time : Option Rat
  language : Option String
deriving DecidableEq, Repr

/-- Conversation context values are opaque to the orchestration layer; they
are passed through unchanged. -/
abbrev Ctx := List (String × String)

/-- The dictionary returned by `conversation_engine.process_conversation`.
The handlers touch `response`, `context`, `conversation_id`, `confidence`
and `processing_time`; each may be absent. -/
structure ConversationDict where
  response : Option String
  context : Option Ctx
  conversation_id : Option String
  confidence : Option Rat
  processing_time : Option Rat
deriving DecidableEq, Repr

/-- The `VoiceResponse` model returned by `speech_to_text`. -/
structure VoiceResponse where
  text : String
  confidence : Rat
  processing_time : Rat
  language : String
deriving DecidableEq, Repr

/-- The `ConversationResponse` model returned by `ai_conversation`. -/
structure ConversationResponse where
  response : String
  context : Ctx
  conversation_id : String
  confidence : Rat
  processing_time : Rat
deriving DecidableEq, Repr

/-- Backend calls a handler can perform, in the order it performs them. -/
inductive Call where
  | transcribe
  | converse
  | synthesize
deriving DecidableEq, Repr

/-- Background tasks enqueued with `background_tasks.add_task`, with the
arguments the handler passes. -/
inductive BgTask where
  | logUsageAnalytics (service : String) (filename : String) (confidence : Rat)
  | logConversation (user_id : String) (input_message : String) (response : String)
  | cleanupTempFile (file_path : String)
deriving DecidableEq, Repr

/-- Whether a background task is one of the analytics/conversation-logging
tasks (as opposed to artifact cleanup). -/
def BgTask.isLogTask : BgTask → Bool
  | .logUsageAnalytics _ _ _ => true
  | .logConversation _ _ _ => true
  | .cleanupTempFile _ => false

instance {ε α : Type} [DecidableEq ε] [DecidableEq α] : DecidableEq (Except ε α) := fun x y =>
  match x, y with
  | Except.ok a, Except.ok b =>
    if h : a = b then Decidable.isTrue (by rw [h]) else Decidable.isFalse (by simp [h])
  | Except.error a, Except.error b =>
    if h : a = b then Decidable.isTrue (by rw [h]) else Decidable.isFalse (by simp [h])
  | Except.ok _, Except.error _ => Decidable.isFalse (by simp)
  | Except.error _, Except.ok _ => Decidable.isFalse (by simp)

/-- The result of running a handler: the response or the exception that
escaped, the backend calls made, and the background tasks enqueued. -/
structure HandlerRun (ρ : Type) where
  result : Except Exc ρ
  calls : List Call
  tasks : List BgTask
deriving DecidableEq, Repr

/-- The `try` block of the `speech_to_text` endpoint (`app.py`):
validate the content type (`HTTPException(400)` on failure), call
`transcribe_audio`, enqueue the `log_usage_analytics` task with
`result.get("confidence", 0)`, and build the `VoiceResponse` from
`result["text"]`, `result["confidence"]`, `result["processing_time"]` and
`result.get("language", "auto-detected")`. -/
def speech_to_text_try (audio_file : UploadFile)
    (transcribe : Except Exc TranscriptionDict) : HandlerRun VoiceResponse :=
  if ¬ strStartsWith audio_file.content_type "audio/" then
    ⟨Except.error (Exc.httpException 400 "Invalid audio file format"), [], []⟩
  else
    match transcribe with
    | Except.error e => ⟨Except.error e, [Call.transcribe], []⟩
    | Except.ok result =>
      let tasks := [BgTask.logUsageAnalytics "speech-to-text" audio_file.filename
        (result.confidence.getD 0)]
      match getKey result.text "text" with
      | Except.error e => ⟨Except.error e, [Call.transcribe], tasks⟩
      | Except.ok t =>
        match getKey result.confidence "confidence" with
        | Except.error e => ⟨Except.error e, [Call.transcribe], tasks⟩
        | Except.ok conf =>
          match getKey result.processing_time "processing_time" with
          | Except.error e => ⟨Except.error e, [Call.transcribe], tasks⟩
          | Except.ok pt =>
            ⟨Except.ok ⟨t, conf, pt, result.language.getD "auto-detected"⟩,
              [Call.transcribe], tasks⟩

/-- The `speech_to_text` endpoint: the `try` block above, with any escaping
exception caught by `except Exception` and re-raised as
`HTTPException(500, "Processing failed: ...")`. -/
def speech_to_text (audio_file : UploadFile)
    (transcribe : Except Exc TranscriptionDict) : HandlerRun VoiceResponse :=
  match speech_to_text_try audio_file transcribe with
  | ⟨Except.ok r, cs, ts⟩ => ⟨Except.ok r, cs, ts⟩
  | ⟨Except.error e, cs, ts⟩ =>
    ⟨Except.error (Exc.httpException 500 ("Processing failed: " ++ excMessage e)), cs, ts⟩

/-- The `ConversationRequest` model consumed by `ai_conversation`. -/
structure ConversationRequest where
  message : String
  context : Option Ctx
  user_id : String
  conversation_id : Option String
deriving DecidableEq, Repr

/-- The `try` block of the `ai_conversation` endpoint (`app.py`): call
`process_conversation`, enqueue the `log_conversation` task with
`response["response"]`, and build the `ConversationResponse` from
`response["response"]`, `response["context"]`, `response["conversation_id"]`,
`response.get("confidence", 0.95)` and `response["processing_time"]`. -/
def ai_conversation_try (request : ConversationRequest)
    (process_conversation : Except Exc ConversationDict) :
    HandlerRun ConversationResponse :=
  match process_conversation with
  | Except.error e => ⟨Except.error e, [Call.converse], []⟩
  | Except.ok response =>
    match getKey response.response "response" with
    | Except.error e => ⟨Except.error e, [Call.converse], []⟩
    | Except.ok reply =>
      let tasks := [BgTask.logConversation request.user_id request.message reply]
      match getKey response.context "context" with
      | Except.error e => ⟨Except.error e, [Call.converse], tasks⟩
      | Except.ok ctx =>
        match getKey response.conversation_id "conversation_id" with
        | Except.error e => ⟨Except.error e, [Call.converse], tasks⟩
        | Except.ok cid =>
          match getKey response.processing_time "processing_time" with
          | Except.error e => ⟨Except.error e, [Call.converse], tasks⟩
          | Except.ok pt =>
            ⟨Except.ok ⟨reply, ctx, cid, response.confidence.getD 0.95, pt⟩,
              [Call.converse], tasks⟩

/-- The `ai_conversation` endpoint: the `try` block above with the generic
`except Exception` handler re-raising `HTTPException(500, ...)`. -/
def ai_conversation (request : ConversationRequest)
    (process_conversation : Except Exc ConversationDict) :
    HandlerRun ConversationResponse :=
  match ai_conversation_try request process_conversation with
  | ⟨Except.ok r, cs, ts⟩ => ⟨Except.ok r, cs, ts⟩
  | ⟨Except.error e, cs, ts⟩ =>
    ⟨Except.error (Exc.httpException 500 ("Processing failed: " ++ excMessage e)), cs, ts⟩

/-- Scan the characters of a path, keeping the component after the last
separator. -/
def pathBaseNameAux : List Char → List Char → List Char
  | [], acc => acc.reverse
  | c :: cs, acc =>
    if c = '/' then pathBaseNameAux cs [] else pathBaseNameAux cs (c :: acc)

/-- Python `Path(p).name`: the last component of a path. -/
def pathBaseName (p : String) : String := String.mk (pathBaseNameAux p.data [])

/-- The response dictionary returned by `voice_conversation`. -/
structure VoiceConversationResponse where
  transcription : String
  ai_response : String
  audio_url : String
  processing_time_transcription : Rat
  processing_time_ai_processing : Rat
deriving DecidableEq, Repr

/-- The behaviour of the two backend singletons for one request:
`transcribe_audio` on the uploaded file, `process_conversation` as a
function of (message, context, user_id, conversation_id), and
`synthesize_speech` as a function of (text, voice, language). -/
structure Backends where
  transcribe_audio : Except Exc TranscriptionDict
  process_conversation : String → Ctx → String → Option String → Except Exc ConversationDict
  synthesize_speech : String → String → String → Except Exc String

/-- The `try` block of the `voice_conversation` endpoint (`app.py`):
`transcribe_audio`, then `process_conversation(transcription["text"], {},
"voice_user")`, then `synthesize_speech(conversation_response["response"],
"default", "en")`, then enqueue the `cleanup_temp_file` task for the
synthesized path, and assemble the response dictionary.  No content-type
validation is performed anywhere in this handler. -/
def voice_conversation_try (audio_file : UploadFile) (be : Backends) :
    HandlerRun VoiceConversationResponse :=
  match be.transcribe_audio with
  | Except.error e => ⟨Except.error e, [Call.transcribe], []⟩
  | Except.ok transcription =>
    match getKey transcription.text "text" with
    | Except.error e => ⟨Except.error e, [Call.transcribe], []⟩
    | Except.ok msg =>
      match be.process_conversation msg [] "voice_user" none with
      | Except.error e => ⟨Except.error e, [Call.transcribe, Call.converse], []⟩
      | Except.ok conversation_response =>
        match getKey conversation_response.response "response" with
        | Except.error e => ⟨Except.error e, [Call.transcribe, Call.converse], []⟩
        | Except.ok reply =>
          match be.synthesize_speech reply "default" "en" with
          | Except.error e =>
            ⟨Except.error e, [Call.transcribe, Call.converse, Call.synthesize], []⟩
          | Except.ok audio_response_path =>
            let tasks := [BgTask.cleanupTempFile audio_response_path]
            match getKey transcription.processing_time "processing_time" with
            | Except.error e =>
              ⟨Except.error e, [Call.transcribe, Call.converse, Call.synthesize], tasks⟩
            | Except.ok tpt =>
              match getKey conversation_response.processing_time "processing_time" with
              | Except.error e =>
                ⟨Except.error e, [Call.transcribe, Call.converse, Call.synthesize], tasks⟩
              | Except.ok cpt =>
                ⟨Except.ok ⟨msg, reply,
                    "/static/audio/" ++ pathBaseName audio_response_path, tpt, cpt⟩,
                  [Call.transcribe, Call.converse, Call.synthesize], tasks⟩

/-- The `voice_conversation` endpoint: the `try` block above with the
generic `except Exception` handler re-raising `HTTPException(500, ...)`. -/
def voice_conversation (audio_file : UploadFile) (be : Backends) :
    HandlerRun VoiceConversationResponse :=
  match voice_conversation_try audio_file be with
  | ⟨Except.ok r, cs, ts⟩ => ⟨Except.ok r, cs, ts⟩
  | ⟨Except.error e, cs, ts⟩ =>
    ⟨Except.error (Exc.httpException 500 ("Processing failed: " ++ excMessage e)), cs, ts⟩

/-- Duration of the `asyncio.sleep(300)` at the start of `cleanup_temp_file`: the deletion
is delayed by 300 seconds after the task starts (which is after the
response has been sent). -/
def cleanupDelaySeconds : Nat := 300

/-- Python `os.remove(p)` on a file system modelled as the list of existing paths:
removing an absent path raises `FileNotFoundError`; removing an existing
path can also fail transiently (permission error, race), which we expose
through the `transientFailure` flag of the environment. -/
def os_remove (fs : List String) (p : String) (transientFailure : Bool) :
    Except Exc (List String) :=
  if p ∈ fs then
    if transientFailure then Except.error (Exc.osError "remove failed")
    else Except.ok (fs.erase p)
  else Except.error (Exc.osError "FileNotFoundError")

/-- The `try` body of the `cleanup_temp_file` background task: after the
300-second sleep, `if os.path.exists(file_path): os.remove(file_path)`. -/
def cleanup_temp_file_body (file_path : String) (fs : List String)
    (transientFailure : Bool) : Except Exc (List String) :=
  if file_path ∈ fs then os_remove fs file_path transientFailure
  else Except.ok fs

/-- The `cleanup_temp_file` background task: the body above wrapped in
`try/except Exception`, which logs and swallows any failure.  Returns the
resulting file system and the (never-error) outcome seen by the caller. -/
def cleanup_temp_file (file_path : String) (fs : List String)
    (transientFailure : Bool) : List String × Except Exc Unit :=
  match cleanup_temp_file_body file_path fs transientFailure with
  | Except.ok newFs => (newFs, Except.ok ())
  | Except.error _ => (fs, Except.ok ())

/-- The `log_usage_analytics` background task: `save_analytics` (whose
outcome `db` is environment-provided) wrapped in `try/except Exception`
which logs and swallows any failure. -/
def log_usage_analytics (service : String) (filename : String)
    (confidence : Rat) (db : Except Exc Unit) : Except Exc Unit :=
  match db with
  | Except.ok _ => Except.ok ()
  | Except.error _ => Except.ok ()

/-- The `log_conversation` background task: `save_conversation_log` (whose
outcome `db` is environment-provided) wrapped in `try/except Exception`
which logs and swallows any failure. -/
def log_conversation (user_id : String) (input_message : String)
    (response : String) (db : Except Exc Unit) : Except Exc Unit :=
  match db with
  | Except.ok _ => Except.ok ()
  | Except.error _ => Except.ok ()

/-- The global names bound at the top level of `src/modules/__init__.py`
(imports, dunders, constants and functions).  Note the constant defined at
line 65 is spelled `PERFORMACE_CONFIG`. -/
def modules_global_names : List String :=
  ["Dict", "Any", "Optional", "List", "logging", "os", "Path",
   "__version__", "__author__", "__description__", "logger",
   "MODULE_CONFIG", "MODULE_PATHS", "PERFORMACE_CONFIG",
   "get_module_info", "validate_audio_config", "setup_module_directories",
   "get_available_models", "validate_language_support", "get_default_config",
   "__all__"]

/-- Resolving a global name in a module namespace: `NameError` when the
name is not bound.  On success the name itself stands in for the bound
value, whose content the claims do not inspect. -/
def resolveName (env : List String) (n : String) : Except Exc String :=
  if n ∈ env then Except.ok n else Except.error (Exc.nameError n)

/-- Function `get_module_info` from `src/modules/__init__.py`: builds its result
dictionary, whose entries reference (in evaluation order) the module globals
`__version__`, `__description__`, `__author__`, `MODULE_CONFIG` (five
subscripts), the name `PERFORME_CONFIG` for the `performance_config` entry,
and `MODULE_PATHS`.  Each referenced global must resolve in the module
namespace. -/
def get_module_info : Except Exc (List String) :=
  (resolveName modules_global_names "__version__").bind fun v =>
  (resolveName modules_global_names "__description__").bind fun d =>
  (resolveName modules_global_names "__author__").bind fun a =>
  (resolveName modules_global_names "MODULE_CONFIG").bind fun c =>
  (resolveName modules_global_names "PERFORME_CONFIG").bind fun p =>
  (resolveName modules_global_names "MODULE_PATHS").bind fun mp =>
  Except.ok [v, d, a, c, p, mp]

/-- Function `get_default_config(module_type)` from `src/modules/__init__.py`:
`base_config = MODULE_CONFIG["default_settings"].copy()` followed by
`base_config.update(PERFORME_CONFIG)`, then module-type-specific updates.
The name `PERFORME_CONFIG` is resolved before any branch on
`module_type`. -/
def get_default_config (module_type : String) : Except Exc (List String) :=
  (resolveName modules_global_names "MODULE_CONFIG").bind fun c =>
  (resolveName modules_global_names "PERFORME_CONFIG").bind fun p =>
  Except.ok
    (if module_type == "asr" then [c, p, "whisper-base"]
     else if module_type == "tts" then [c, p, "elevenlabs"]
     else if module_type == "voice_cloning" then [c, p, "elevenlabs-clone"]
     else [c, p])

/-- Constant `SUPPORTED_AUDIO_FORMATS` from `src/api/__init__.py`. -/
def SUPPORTED_AUDIO_FORMATS : List (String × List String) :=
  [("input", ["wav", "mp3", "m4a", "flac", "webm"]),
   ("output", ["wav", "mp3", "ogg"])]

/-- Function `validate_audio_format(file_format, format_type)` from
`src/api/__init__.py`: `False` when `format_type` is not a key of
`SUPPORTED_AUDIO_FORMATS`, otherwise membership of
`file_format.lower()` in the selected list. -/
def validate_audio_format (file_format : String) (format_type : String) : Bool :=
  match SUPPORTED_AUDIO_FORMATS.lookup format_type with
  | none => false
  | some fmts => file_format.toLower ∈ fmts

/-- Claim C10: `validate_audio_format` is total and returns `true` exactly
when `format_type` is `input` or `output` and the lowercase of
`file_format` is in the corresponding supported-format list; any unknown
`format_type` yields `false` rather than an error. -/
theorem validate_audio_format_characterization (file_format format_type : String) :
    validate_audio_format file_format format_type = true ↔
      ((format_type = "input" ∧
          file_format.toLower ∈ ["wav", "mp3", "m4a", "flac", "webm"]) ∨
       (format_type = "output" ∧
          file_format.toLower ∈ ["wav", "mp3", "ogg"])) := by
  unfold validate_audio_format SUPPORTED_AUDIO_FORMATS
  by_cases h1 : format_type = "input"
  · subst h1; simp [List.lookup]
  · by_cases h2 : format_type = "output"
    · subst h2; simp [List.lookup]
    · have e1 : (format_type == "input") = false := by
        simpa [beq_eq_false_iff_ne] using h1
      have e2 : (format_type == "output") = false := by
        simpa [beq_eq_false_iff_ne] using h2
      simp [List.lookup, e1, e2, h1, h2]

/-- Claim C8: both `get_module_info` and `get_default_config` (for every
`module_type`) raise `NameError` on the undefined name `PERFORME_CONFIG`
(the defined constant is `PERFORMACE_CONFIG`), so neither ever returns a
value. -/
theorem modules_performe_config_name_error :
    get_module_info = Except.error (Exc.nameError "PERFORME_CONFIG") ∧
    ∀ module_type : String,
      get_default_config module_type =
        Except.error (Exc.nameError "PERFORME_CONFIG") := by
  constructor
  · decide
  · intro module_type
    unfold get_default_config
    have hc : resolveName modules_global_names "MODULE_CONFIG" =
        Except.ok "MODULE_CONFIG" := by decide
    have hp : resolveName modules_global_names "PERFORME_CONFIG" =
        Except.error (Exc.nameError "PERFORME_CONFIG") := by decide
    rw [hc, hp]
    rfl

/-- Claim C5: the three background tasks swallow every failure of their
inner work (database write, file removal) and never raise to any caller. -/
theorem background_tasks_never_raise :
    ∀ (service filename : String) (confidence : Rat) (db : Except Exc Unit)
      (user_id input_message response : String) (db2 : Except Exc Unit)
      (file_path : String) (fs : List String) (transientFailure : Bool),
      log_usage_analytics service filename confidence db = Except.ok () ∧
      log_conversation user_id input_message response db2 = Except.ok () ∧
      (cleanup_temp_file file_path fs transientFailure).2 = Except.ok () := by
  intro service filename confidence db user_id input_message response db2
    file_path fs transientFailure
  refine ⟨?_, ?_, ?_⟩
  · cases db <;> rfl
  · cases db2 <;> rfl
  · unfold cleanup_temp_file
    cases cleanup_temp_file_body file_path fs transientFailure <;> rfl

/-- Claim C6: running `cleanup_temp_file` on a path that no longer exists
is a successful no-op: it does not raise and leaves the file system
unchanged, so a second deletion of the same artifact is never an error. -/
theorem cleanup_temp_file_absent_noop (file_path : String) (fs : List String)
    (transientFailure : Bool) (h : file_path ∉ fs) :
    cleanup_temp_file file_path fs transientFailure = (fs, Except.ok ()) := by
  simp [cleanup_temp_file, cleanup_temp_file_body, h]

theorem cleanup_temp_file_absent_noop_witness :
    ("a.wav" : String) ∉ ["b.wav"] ∧
    cleanup_temp_file "a.wav" ["b.wav"] false = (["b.wav"], Except.ok ()) :=
  ⟨by decide, cleanup_temp_file_absent_noop "a.wav" ["b.wav"] false (by decide)⟩

/-- Claim C7: when the backend reply carries the required keys, the
`ai_conversation` endpoint returns confidence `0.95` if the backend omitted
the `confidence` key, and returns the backend value unchanged when it is
present. -/
theorem ai_conversation_confidence_default (request : ConversationRequest)
    (d : ConversationDict) (r : String) (c : Ctx) (cid : String) (pt : Rat)
    (hr : d.response = some r) (hc : d.context = some c)
    (hid : d.conversation_id = some cid) (hpt : d.processing_time = some pt) :
    (d.confidence = none →
      (ai_conversation request (Except.ok d)).result =
        Except.ok ⟨r, c, cid, 0.95, pt⟩) ∧
    (∀ cf : Rat, d.confidence = some cf →
      (ai_conversation request (Except.ok d)).result =
        Except.ok ⟨r, c, cid, cf, pt⟩) := by
  constructor
  · intro h
    simp [ai_conversation, ai_conversation_try, getKey, hr, hc, hid, hpt, h]
  · intro cf h
    simp [ai_conversation, ai_conversation_try, getKey, hr, hc, hid, hpt, h]

theorem ai_conversation_confidence_default_witness :
    (⟨some "hi", some [], some "c1", none, some 7⟩ : ConversationDict).response =
      some "hi" ∧
    (ai_conversation ⟨"q", none, "u1", none⟩
        (Except.ok ⟨some "hi", some [], some "c1", none, some 7⟩)).result =
      Except.ok ⟨"hi", [], "c1", 0.95, 7⟩ :=
  ⟨rfl,
    (ai_conversation_confidence_default ⟨"q", none, "u1", none⟩
        ⟨some "hi", some [], some "c1", none, some 7⟩ "hi" [] "c1" 7
        rfl rfl rfl rfl).1 rfl⟩

/-- A healthy environment: every backend call succeeds and returns a
fully-populated dictionary. -/
def exampleBackends : Backends where
  transcribe_audio := Except.ok ⟨some "hello", some 0.9, some 12, some "en"⟩
  process_conversation := fun _ _ _ _ =>
    Except.ok ⟨some "hi there", some [], some "c1", some 0.95, some 5⟩
  synthesize_speech := fun _ _ _ => Except.ok "static/audio/out.wav"

/-- Claim C4: when `transcribe_audio` fails, `voice_conversation` makes no
further backend call (`process_conversation` and `synthesize_speech` are
never invoked), enqueues no background task, and fails with the generic
HTTP 500 response. -/
theorem voice_conversation_transcribe_failure (audio_file : UploadFile) (e : Exc)
    (pc : String → Ctx → String → Option String → Except Exc ConversationDict)
    (syn : String → String → String → Except Exc String) :
    voice_conversation audio_file ⟨Except.error e, pc, syn⟩ =
      ⟨Except.error (Exc.httpException 500 ("Processing failed: " ++ excMessage e)),
        [Call.transcribe], []⟩ ∧
    Call.converse ∉ (voice_conversation audio_file ⟨Except.error e, pc, syn⟩).calls ∧
    Call.synthesize ∉ (voice_conversation audio_file ⟨Except.error e, pc, syn⟩).calls ∧
    (voice_conversation audio_file ⟨Except.error e, pc, syn⟩).tasks = [] := by
  have h : voice_conversation audio_file ⟨Except.error e, pc, syn⟩ =
      ⟨Except.error (Exc.httpException 500 ("Processing failed: " ++ excMessage e)),
        [Call.transcribe], []⟩ := rfl
  refine ⟨h, ?_, ?_, ?_⟩ <;> rw [h] <;> simp

/-- Claim C1 fails on the code: a `text/plain` upload is not rejected; with
healthy backends the request is processed end-to-end, and all three backend
calls (`transcribe_audio` first) are made. -/
theorem voice_conversation_no_reject_cex :
    (voice_conversation ⟨"note.txt", "text/plain"⟩ exampleBackends).calls =
      [Call.transcribe, Call.converse, Call.synthesize] ∧
    (voice_conversation ⟨"note.txt", "text/plain"⟩ exampleBackends).result =
      Except.ok ⟨"hello", "hi there", "/static/audio/out.wav", 12, 5⟩ :=
  ⟨rfl, rfl⟩

/-- Claim C1 amended: `voice_conversation` performs no content-type
validation at all — its behaviour is independent of the uploaded file, and
`transcribe_audio` is invoked on every request, whatever the content
type. -/
theorem voice_conversation_no_validation (audio_file audio_file' : UploadFile)
    (be : Backends) :
    Call.transcribe ∈ (voice_conversation audio_file be).calls ∧
    voice_conversation audio_file be = voice_conversation audio_file' be := by
  refine ⟨?_, rfl⟩
  have hcalls : (voice_conversation audio_file be).calls =
      (voice_conversation_try audio_file be).calls := by
    unfold voice_conversation
    split <;> simp_all
  rw [hcalls]
  unfold voice_conversation_try
  repeat' split
  all_goals simp

/-- Claim C3 fails on the code: this successful voice-conversation request
enqueues exactly one cleanup task but zero analytics/conversation-logging
tasks, while the claim requires exactly one of the latter. -/
theorem voice_conversation_no_log_task_cex :
    (voice_conversation ⟨"voice.wav", "audio/wav"⟩ exampleBackends).result.isOk =
      true ∧
    (voice_conversation ⟨"voice.wav", "audio/wav"⟩ exampleBackends).tasks =
      [BgTask.cleanupTempFile "static/audio/out.wav"] ∧
    ((voice_conversation ⟨"voice.wav", "audio/wav"⟩ exampleBackends).tasks.filter
        BgTask.isLogTask).length = 0 :=
  ⟨rfl, rfl, rfl⟩

/-- Claim C3 amended: every successful voice-conversation request enqueues
exactly one `cleanup_temp_file` background task (for the synthesized
artifact), whose execution is delayed by the 300-second sleep at the start
of the task; no analytics or conversation-logging task is enqueued by this
endpoint. -/
theorem voice_conversation_success_tasks (audio_file : UploadFile) (be : Backends)
    (r : VoiceConversationResponse) (cs : List Call) (ts : List BgTask)
    (h : voice_conversation audio_file be = ⟨Except.ok r, cs, ts⟩) :
    (∃ p, ts = [BgTask.cleanupTempFile p]) ∧
    ts.filter BgTask.isLogTask = [] ∧
    cleanupDelaySeconds = 300 := by
  have hrun : voice_conversation_try audio_file be = ⟨Except.ok r, cs, ts⟩ := by
    unfold voice_conversation at h
    split at h <;> simp_all
  unfold voice_conversation_try at hrun
  repeat' split at hrun
  all_goals simp only [HandlerRun.mk.injEq] at hrun
  all_goals try exact Except.noConfusion hrun.1
  obtain ⟨hr, hcs, hts⟩ := hrun
  subst hts
  exact ⟨⟨_, rfl⟩, rfl, rfl⟩

theorem voice_conversation_success_tasks_witness :
    voice_conversation ⟨"voice2.wav", "audio/wav"⟩ exampleBackends =
      ⟨Except.ok ⟨"hello", "hi there", "/static/audio/out.wav", 12, 5⟩,
        [Call.transcribe, Call.converse, Call.synthesize],
        [BgTask.cleanupTempFile "static/audio/out.wav"]⟩ ∧
    ((∃ p, [BgTask.cleanupTempFile "static/audio/out.wav"] =
        [BgTask.cleanupTempFile p]) ∧
      ([BgTask.cleanupTempFile "static/audio/out.wav"] : List BgTask).filter
        BgTask.isLogTask = [] ∧
      cleanupDelaySeconds = 300) :=
  ⟨rfl,
    voice_conversation_success_tasks ⟨"voice2.wav", "audio/wav"⟩ exampleBackends
      ⟨"hello", "hi there", "/static/audio/out.wav", 12, 5⟩
      [Call.transcribe, Call.converse, Call.synthesize]
      [BgTask.cleanupTempFile "static/audio/out.wav"] rfl⟩

/-- Claim C2 fails on the code as written: for a `text/plain` upload the
endpoint raises `HTTPException(400)` inside its own `try` block, the
generic `except Exception` catches it, and the client receives HTTP 500,
never 400.  The spec and the explicit `HTTPException(status_code=400)`
in the source show 400 was the intent. -/
theorem speech_to_text_nonaudio_returns_500 :
    (speech_to_text ⟨"note.txt", "text/plain"⟩
        (Except.ok ⟨some "hello", some 0.9, some 12, some "en"⟩)).result =
      Except.error (Exc.httpException 500
        "Processing failed: 400: Invalid audio file format") ∧
    ∀ s, (speech_to_text ⟨"note.txt", "text/plain"⟩
        (Except.ok ⟨some "hello", some 0.9, some 12, some "en"⟩)).result ≠
      Except.error (Exc.httpException 400 s) := by
  refine ⟨rfl, ?_⟩
  intro s hcon
  rw [show (speech_to_text ⟨"note.txt", "text/plain"⟩
      (Except.ok ⟨some "hello", some 0.9, some 12, some "en"⟩)).result =
      Except.error (Exc.httpException 500
        "Processing failed: 400: Invalid audio file format") from rfl] at hcon
  simp [Exc.httpException.injEq] at hcon

/-- Claim C9: given a non-audio-rejection request, `speech_to_text`
succeeds exactly when the backend dictionary carries `text`, `confidence`
and `processing_time`; a missing key surfaces as HTTP 500 via the generic
handler; a missing `language` is defaulted to `auto-detected` in the
response; and `confidence` is defaulted to `0` only in the enqueued
analytics task, never in the response. -/
theorem speech_to_text_required_keys (audio_file : UploadFile)
    (d : TranscriptionDict)
    (h : strStartsWith audio_file.content_type "audio/" = true) :
    ((speech_to_text audio_file (Except.ok d)).result.isOk = true ↔
      (d.text.isSome = true ∧ d.confidence.isSome = true ∧
        d.processing_time.isSome = true)) ∧
    ((d.text = none ∨ d.confidence = none ∨ d.processing_time = none) →
      ∃ m, (speech_to_text audio_file (Except.ok d)).result =
        Except.error (Exc.httpException 500 m)) ∧
    (∀ t c pt, d.text = some t → d.confidence = some c →
      d.processing_time = some pt →
      (speech_to_text audio_file (Except.ok d)).result =
        Except.ok ⟨t, c, pt, d.language.getD "auto-detected"⟩) ∧
    (speech_to_text audio_file (Except.ok d)).tasks =
      [BgTask.logUsageAnalytics "speech-to-text" audio_file.filename
        (d.confidence.getD 0)] := by
  obtain ⟨ot, oc, op, ol⟩ := d
  cases ot <;> cases oc <;> cases op <;>
    simp [speech_to_text, speech_to_text_try, getKey, h, Except.isOk, Except.toBool]

theorem speech_to_text_required_keys_witness :
    strStartsWith (⟨"v.wav", "audio/wav"⟩ : UploadFile).content_type "audio/" =
      true ∧
    (((speech_to_text ⟨"v.wav", "audio/wav"⟩
          (Except.ok ⟨some "hello", some 0.9, some 12, none⟩)).result.isOk = true ↔
        ((⟨some "hello", some 0.9, some 12, none⟩ :
            TranscriptionDict).text.isSome = true ∧
         (⟨some "hello", some 0.9, some 12, none⟩ :
            TranscriptionDict).confidence.isSome = true ∧
         (⟨some "hello", some 0.9, some 12, none⟩ :
            TranscriptionDict).processing_time.isSome = true)) ∧
      (((⟨some "hello", some 0.9, some 12, none⟩ :
            TranscriptionDict).text = none ∨
        (⟨some "hello", some 0.9, some 12, none⟩ :
            TranscriptionDict).confidence = none ∨
        (⟨some "hello", some 0.9, some 12, none⟩ :
            TranscriptionDict).processing_time = none) →
        ∃ m, (speech_to_text ⟨"v.wav", "audio/wav"⟩
            (Except.ok ⟨some "hello", some 0.9, some 12, none⟩)).result =
          Except.error (Exc.httpException 500 m)) ∧
      (∀ t c pt,
        (⟨some "hello", some 0.9, some 12, none⟩ :
            TranscriptionDict).text = some t →
        (⟨some "hello", some 0.9, some 12, none⟩ :
            TranscriptionDict).confidence = some c →
        (⟨some "hello", some 0.9, some 12, none⟩ :
            TranscriptionDict).processing_time = some pt →
        (speech_to_text ⟨"v.wav", "audio/wav"⟩
            (Except.ok ⟨some "hello", some 0.9, some 12, none⟩)).result =
          Except.ok ⟨t, c, pt,
            (⟨some "hello", some 0.9, some 12, none⟩ :
              TranscriptionDict).language.getD "auto-detected"⟩) ∧
      (speech_to_text ⟨"v.wav", "audio/wav"⟩
          (Except.ok ⟨some "hello", some 0.9, some 12, none⟩)).tasks =
        [BgTask.logUsageAnalytics "speech-to-text"
          (⟨"v.wav", "audio/wav"⟩ : UploadFile).filename
          ((⟨some "hello", some 0.9, some 12, none⟩ :
            TranscriptionDict).confidence.getD 0)]) :=
  ⟨rfl,
    speech_to_text_required_keys ⟨"v.wav", "audio/wav"⟩
      ⟨some "hello", some 0.9, some 12, none⟩ rfl⟩
